import Mathlib

/-!
Verification development for the TEMPO raster-to-tileset pipeline
(`FINAL_tempo_to_cog.py`, `cog_to_mapbox_tileset.py`, `accuracy_test.py`).

The remote publish orchestrator (`cog_to_mapbox_tileset.py`) is embedded as
pure decision functions over HTTP status codes together with a trace-producing
model of its per-artifact main loop.  The raster pipeline stages that are
executed by external GDAL tools (`gdal_calc.py`, `gdalwarp`, `gdal_translate`)
are modelled from the specification, with the numeric profile constants taken
from the command-line arguments in the source.
-/

namespace Tempo

/-! ## Backoff policy (`post_with_backoff`, cog_to_mapbox_tileset.py lines 25-34)

```python
def post_with_backoff(url, **kwargs):
    for attempt in range(5):
        r = requests.post(url, **kwargs)
        if r.status_code != 429:
            return r
        sleep_seconds = 2 ** attempt # 2, 4, 8, 16, 32 seconds
        time.sleep(sleep_seconds)
    return r  # last response
```

`resp attempt` is the status code the remote returns to the POST issued on
loop iteration `attempt` (0-based).  The result records the sleep durations
performed, the number of POSTs issued, and the status code of the response
that is returned to the caller. -/

structure BackoffResult where
  sleeps : List Nat
  posts : Nat
  final : Nat
  deriving Repr, DecidableEq

/-- One loop iteration of `post_with_backoff`: `attempt` is the current value
of the loop variable, `remaining` the number of iterations the `range(5)` loop
still has.  When the loop runs out, the Python function returns `r`, the
response of the last POST issued, i.e. `resp (attempt - 1)`. -/
def backoffAux (resp : Nat → Nat) : Nat → Nat → BackoffResult
  | attempt, 0 => ⟨[], 0, resp (attempt - 1)⟩
  | attempt, remaining + 1 =>
    let r := resp attempt
    if r ≠ 429 then ⟨[], 1, r⟩
    else
      let rest := backoffAux resp (attempt + 1) remaining
      ⟨2 ^ attempt :: rest.sleeps, rest.posts + 1, rest.final⟩

/-- `post_with_backoff` with the response sequence `resp`. -/
def post_with_backoff (resp : Nat → Nat) : BackoffResult :=
  backoffAux resp 0 5

/-- The loop always issues at least one POST. -/
theorem post_with_backoff_posts_pos (resp : Nat → Nat) :
    1 ≤ (post_with_backoff resp).posts := by
  unfold post_with_backoff backoffAux
  by_cases h : resp 0 ≠ 429 <;> simp [h]

/-- A non-429 first response is returned immediately: one POST, no sleeps. -/
theorem post_with_backoff_immediate (resp : Nat → Nat) (h : resp 0 ≠ 429) :
    post_with_backoff resp = ⟨[], 1, resp 0⟩ := by
  unfold post_with_backoff backoffAux
  simp [h]

/-! ## Remote-response classification (cog_to_mapbox_tileset.py)

Each helper of the orchestrator turns the HTTP response of one remote call
into a boolean outcome.  We embed exactly those decision branches. -/

/-- `tileset_exists` (lines 37-47): `200 → True`, `404 → False`,
anything else prints a warning and returns `False`. -/
def tileset_exists (status : Nat) : Bool :=
  if status = 200 then true
  else if status = 404 then false
  else false

/-- `upload_to_mapbox_source_from_gcs` (lines 57-73): success iff the final
response of the backoff wrapper has status 200. -/
def upload_ok (status : Nat) : Bool :=
  status == 200

/-- `create_mapbox_tileset` (lines 77-119): success on 200/201, idempotent
success on a 400 whose body contains "already exists", failure otherwise.
`alreadyExistsBody` is whether `"already exists" in response.text`. -/
def create_ok (status : Nat) (alreadyExistsBody : Bool) : Bool :=
  if status = 200 ∨ status = 201 then true
  else if status = 400 ∧ alreadyExistsBody = true then true
  else false

/-- `publish_mapbox_tileset` (lines 123-138): success iff status 200. -/
def publish_ok (status : Nat) : Bool :=
  status == 200

/-- `create_mapbox_tileset` in FINAL_tempo_to_cog.py (lines 118-157), an
earlier duplicated variant: success on 200/201 only, no already-exists
branch. -/
def create_ok_final_variant (status : Nat) : Bool :=
  if status = 200 ∨ status = 201 then true
  else false

/-! ## Per-artifact orchestration (cog_to_mapbox_tileset.py lines 154-190)

```python
    date = extract_date(blob.name)
    mapbox_id = f"{date}-no2"
    if tileset_exists(mapbox_id):
        skipped += 1
        continue
    upload_to_mapbox_source_from_gcs(blob, mapbox_id)
    create_mapbox_tileset(mapbox_id, mapbox_id, date)
    publish_mapbox_tileset(mapbox_id)
```

The return values of the three calls are not inspected by the loop.  The
remote side is modelled by the status codes it answers with; the model
records the sequence of remote calls the loop issues for one artifact. -/

/-- One remote call issued while processing a single artifact. -/
inductive Call
  | probe
  | uploadPost
  | createPost
  | publishPost
  deriving Repr, DecidableEq

/-- The remote side's behaviour towards one artifact: the status answered to
the existence probe, the status sequences answered to the POSTs of the three
backoff-wrapped calls, and whether the final create response's body contains
"already exists". -/
structure Remote where
  probeStatus : Nat
  uploadResp : Nat → Nat
  createResp : Nat → Nat
  createAlreadyExistsBody : Bool
  publishResp : Nat → Nat

/-- Outcome of the main loop's body for one artifact: the remote calls
issued in order, whether the artifact was skipped, and the reported results
of the three steps (absent when skipped). -/
structure Outcome where
  calls : List Call
  skipped : Bool
  uploadResult : Option Bool
  createResult : Option Bool
  publishResult : Option Bool
  deriving Repr, DecidableEq

/-- The main loop's body for one artifact. -/
def processArtifact (r : Remote) : Outcome :=
  if tileset_exists r.probeStatus then
    ⟨[.probe], true, none, none, none⟩
  else
    let u := post_with_backoff r.uploadResp
    let c := post_with_backoff r.createResp
    let p := post_with_backoff r.publishResp
    ⟨[.probe] ++ List.replicate u.posts .uploadPost
        ++ List.replicate c.posts .createPost
        ++ List.replicate p.posts .publishPost,
     false,
     some (upload_ok u.final),
     some (create_ok c.final r.createAlreadyExistsBody),
     some (publish_ok p.final)⟩

/-! ## Date extraction and remote ID derivation

`extract_date` (cog_to_mapbox_tileset.py lines 50-54, identical in
FINAL_tempo_to_cog.py lines 26-30):

```python
def extract_date(filename):
    match = re.search(r'(\d{4}-\d{2}-\d{2})', filename)
    if not match:
        print(f'✗ Could not extract date from {filename}')
    return match.group(1) if match else None
```

`re.search` finds the leftmost occurrence of the pattern
`\d{4}-\d{2}-\d{2}` (four digits, dash, two digits, dash, two digits). -/

/-- Whether the list of characters starts with a `\d{4}-\d{2}-\d{2}` match. -/
def matchesDateAt : List Char → Bool
  | a :: b :: c :: d :: h1 :: e :: f :: h2 :: g :: h :: _ =>
    a.isDigit && b.isDigit && c.isDigit && d.isDigit && h1 == '-' &&
    e.isDigit && f.isDigit && h2 == '-' && g.isDigit && h.isDigit
  | _ => false

/-- Leftmost match of the date pattern, as `re.search` finds it. -/
def findDate : List Char → Option (List Char)
  | [] => none
  | l@(_ :: rest) => if matchesDateAt l then some (l.take 10) else findDate rest

/-- `extract_date`: the matched group, or `None` when there is no match. -/
def extract_date (filename : String) : Option String :=
  (findDate filename.data).map fun l => ⟨l⟩

/-- Python's f-string conversion of an optional string: `None` renders as
the literal text `"None"`. -/
def pyShow : Option String → String
  | none => "None"
  | some s => s

/-- `mapbox_id = f"{date}-no2"` (line 167). -/
def mapbox_id (date : Option String) : String :=
  pyShow date ++ "-no2"

/-! ## Quantization profile and affine encoder

The quantization itself is executed by the external tool `gdal_translate`
(FINAL_tempo_to_cog.py lines 80-90); only its invocation
`-ot Byte -scale 0 1e16 1 255 -a_nodata 0` is in the repository.

Modelled from the spec: the 8-bit quantization step performed by
`gdal_translate -ot Byte -scale` — the affine transform
`code = round((value - physical_min) / (physical_max - physical_min)
* (code_max - code_min) + code_min)` clamped to `[code_min, code_max]`,
with nodata pixels bypassing the formula and mapping to `nodata_code`.
The profile constants are taken from the `-scale`/`-a_nodata` arguments. -/

structure QuantizationProfile where
  physical_min : ℚ
  physical_max : ℚ
  code_min : ℤ
  code_max : ℤ
  nodata_code : ℤ
  deriving Repr, DecidableEq

/-- The profile configured by `-scale 0 1e16 1 255 -a_nodata 0`. -/
def tempoProfile : QuantizationProfile :=
  ⟨0, 10 ^ 16, 1, 255, 0⟩

/-- The forward affine map from physical units to (unrounded) code space. -/
def affine (p : QuantizationProfile) (v : ℚ) : ℚ :=
  (v - p.physical_min) / (p.physical_max - p.physical_min)
    * ((p.code_max : ℚ) - (p.code_min : ℚ)) + (p.code_min : ℚ)

/-- The quantizer on valid (non-nodata) physical values: round the affine
image and clamp it to `[code_min, code_max]`. -/
def quantize (p : QuantizationProfile) (v : ℚ) : ℤ :=
  max p.code_min (min p.code_max (round (affine p v)))

/-- The encoder on a possibly-nodata pixel: nodata bypasses the affine
formula entirely and maps to `nodata_code`. -/
def encodePixel (p : QuantizationProfile) : Option ℚ → ℤ
  | none => p.nodata_code
  | some v => quantize p v

/-- The inverse affine map decoding a code back to physical units
(accuracy_test.py line 89: `((tif_valid - 1) / 254) * 5e17` is this map for
its profile). -/
def decode (p : QuantizationProfile) (c : ℤ) : ℚ :=
  ((c : ℚ) - (p.code_min : ℚ)) / ((p.code_max : ℚ) - (p.code_min : ℚ))
    * (p.physical_max - p.physical_min) + p.physical_min

/-- A profile is valid when the code range is ordered and the nodata code
lies outside `[code_min, code_max]`; a profile violating this is a
configuration error (`InvalidProfileError` in the spec). -/
def ValidProfile (p : QuantizationProfile) : Prop :=
  p.code_min ≤ p.code_max ∧ (p.nodata_code < p.code_min ∨ p.code_max < p.nodata_code)

instance (p : QuantizationProfile) : Decidable (ValidProfile p) := by
  unfold ValidProfile; infer_instance

/-! ## Raster pipeline stages

The reduction, clipping and encoding stages are executed by the external
tools `gdal_calc.py`, `gdalwarp` and `gdal_translate`
(FINAL_tempo_to_cog.py lines 59-90); only their invocations are in the
repository.  A pixel is `none` when it is nodata. -/

/-- A single-band raster plane: a shape and a pixel function. -/
structure Raster where
  rows : Nat
  cols : Nat
  data : Nat → Nat → Option ℚ

/-- A raster cube: a shape shared by all time-slots and one plane per slot. -/
structure RasterCube where
  rows : Nat
  cols : Nat
  slots : List (Nat → Nat → Option ℚ)

/-- Modelled from the spec: the NaN-aware per-pixel maximum used by the
temporal reducer (`gdal_calc.py --calc numpy.nanmax(A, axis=0)`, external
tool): absent observations are ignored, and a pixel absent in every slot is
nodata. -/
def nanmaxPixel : List (Option ℚ) → Option ℚ
  | [] => none
  | none :: rest => nanmaxPixel rest
  | some v :: rest =>
    match nanmaxPixel rest with
    | none => some v
    | some w => some (max v w)

/-- The temporal reducer: collapse the time axis pixelwise with
`nanmaxPixel`, keeping the spatial shape. -/
def reduceCube (c : RasterCube) : Raster :=
  ⟨c.rows, c.cols, fun i j => nanmaxPixel (c.slots.map fun s => s i j)⟩

/-- Modelled from the spec: the geographic clipper
(`gdalwarp -cutline -dstnodata 0`, external tool) — every pixel whose
representative point falls outside the boundary polygon is set to nodata and
every interior pixel is unchanged; the shape is preserved.  `inside i j`
is the polygon-membership test of pixel `(i, j)`'s representative point. -/
def clipRaster (inside : Nat → Nat → Bool) (r : Raster) : Raster :=
  ⟨r.rows, r.cols, fun i j => if inside i j then r.data i j else none⟩

/-- The encoder applied to a whole raster: pixelwise `encodePixel`, shape
preserved. -/
structure CodedRaster where
  rows : Nat
  cols : Nat
  data : Nat → Nat → ℤ

def encodeRaster (p : QuantizationProfile) (r : Raster) : CodedRaster :=
  ⟨r.rows, r.cols, fun i j => encodePixel p (r.data i j)⟩

/-! ## Helper lemmas -/

/-- Rounding is monotone. -/
theorem round_le_round {x y : ℚ} (h : x ≤ y) : round x ≤ round y := by
  rw [round_eq, round_eq]
  exact Int.floor_le_floor (by linarith)

/-- The quantizer output always lies in the valid code range. -/
theorem quantize_mem (p : QuantizationProfile) (hc : p.code_min ≤ p.code_max)
    (v : ℚ) : p.code_min ≤ quantize p v ∧ quantize p v ≤ p.code_max := by
  unfold quantize
  constructor
  · exact le_max_left _ _
  · exact max_le hc (min_le_left _ _)

/-- The forward affine map inverts the decoding map exactly. -/
theorem affine_decode (p : QuantizationProfile)
    (hp : p.physical_min < p.physical_max) (hc : p.code_min < p.code_max)
    (c : ℤ) : affine p (decode p c) = (c : ℚ) := by
  have h1 : p.physical_max - p.physical_min ≠ 0 := by linarith
  have h2 : (p.code_max : ℚ) - (p.code_min : ℚ) ≠ 0 := by
    have : (p.code_min : ℚ) < (p.code_max : ℚ) := by exact_mod_cast hc
    linarith
  unfold affine decode
  field_simp
  ring

/-- Main-loop trace when the probe does not report the tileset as existing. -/
theorem processArtifact_not_exists (r : Remote)
    (h : tileset_exists r.probeStatus = false) :
    processArtifact r =
      ⟨[.probe] ++ List.replicate (post_with_backoff r.uploadResp).posts .uploadPost
          ++ List.replicate (post_with_backoff r.createResp).posts .createPost
          ++ List.replicate (post_with_backoff r.publishResp).posts .publishPost,
       false,
       some (upload_ok (post_with_backoff r.uploadResp).final),
       some (create_ok (post_with_backoff r.createResp).final r.createAlreadyExistsBody),
       some (publish_ok (post_with_backoff r.publishResp).final)⟩ := by
  unfold processArtifact
  rw [h]
  simp

/-- Each of the three POST kinds appears in the non-skipped trace. -/
theorem mem_calls_of_not_exists (r : Remote)
    (h : tileset_exists r.probeStatus = false) :
    Call.uploadPost ∈ (processArtifact r).calls ∧
    Call.createPost ∈ (processArtifact r).calls ∧
    Call.publishPost ∈ (processArtifact r).calls := by
  rw [processArtifact_not_exists r h]
  have hu := post_with_backoff_posts_pos r.uploadResp
  have hc := post_with_backoff_posts_pos r.createResp
  have hp := post_with_backoff_posts_pos r.publishResp
  refine ⟨?_, ?_, ?_⟩ <;> simp <;> omega

/-! ## Claim theorems -/

/-- C1: the publish orchestrator always issues the tileset-existence probe
first, and when the probe reports the tileset as existing, the artifact is
skipped with zero source-upload, tileset-creation and publish calls — the
trace is exactly the probe, so a re-run over an already-published artifact
performs no duplicate remote work. -/
theorem C1_existence_short_circuit (r : Remote)
    (h : tileset_exists r.probeStatus = true) :
    (∀ s : Remote, (processArtifact s).calls.head? = some Call.probe) ∧
    (processArtifact r).calls = [Call.probe] ∧
    (processArtifact r).skipped = true ∧
    Call.uploadPost ∉ (processArtifact r).calls ∧
    Call.createPost ∉ (processArtifact r).calls ∧
    Call.publishPost ∉ (processArtifact r).calls := by
  refine ⟨?_, ?_⟩
  · intro s
    unfold processArtifact
    by_cases hs : tileset_exists s.probeStatus <;> simp [hs]
  · unfold processArtifact
    rw [h]
    simp

theorem C1_existence_short_circuit_witness :
    tileset_exists 200 = true ∧
    (processArtifact ⟨200, fun _ => 200, fun _ => 200, false, fun _ => 200⟩).calls
      = [Call.probe] := by
  have h := C1_existence_short_circuit
    ⟨200, fun _ => 200, fun _ => 200, false, fun _ => 200⟩ (by decide)
  exact ⟨by decide, h.2.1⟩

/-- C2: under five consecutive rate-limited (429) responses,
`post_with_backoff` issues exactly five POSTs and then surfaces the last
response itself, but the sleep sequence it performs is 1, 2, 4, 8, 16 time
units (`2 ** attempt` with `attempt` starting at 0) — not the 2, 4, 8, 16,
32 announced by the claim and by the code's own inline comment. -/
theorem C2_backoff_delays :
    post_with_backoff (fun _ => 429) =
      ⟨[1, 2, 4, 8, 16], 5, 429⟩ := by
  decide

/-- C9: the existence probe returns `True` exactly on status 200 and
`False` on every other status (404 as well as transient or authentication
errors such as 401, 429, 500), so a probe error is indistinguishable from
"tileset absent" and the orchestrator proceeds with the full
upload/create/publish attempt. -/
theorem C9_probe_error_indistinguishable (r : Remote)
    (hne : r.probeStatus ≠ 200) :
    (∀ s : Nat, tileset_exists s = true ↔ s = 200) ∧
    tileset_exists r.probeStatus = false ∧
    Call.uploadPost ∈ (processArtifact r).calls ∧
    Call.createPost ∈ (processArtifact r).calls ∧
    Call.publishPost ∈ (processArtifact r).calls := by
  have hfalse : tileset_exists r.probeStatus = false := by
    unfold tileset_exists
    simp [hne]
  refine ⟨?_, hfalse, mem_calls_of_not_exists r hfalse⟩
  intro s
  unfold tileset_exists
  by_cases hs : s = 200 <;> simp [hs]

theorem C9_probe_error_indistinguishable_witness :
    tileset_exists 500 = false ∧
    Call.uploadPost ∈
      (processArtifact ⟨500, fun _ => 200, fun _ => 200, false, fun _ => 200⟩).calls := by
  have h := C9_probe_error_indistinguishable
    ⟨500, fun _ => 200, fun _ => 200, false, fun _ => 200⟩ (by decide)
  exact ⟨h.2.1, h.2.2.1⟩

/-- C10: a filename with no `YYYY-MM-DD` substring makes `extract_date`
return `None`, the derived remote ID becomes the literal string
`"None-no2"`, and therefore every dateless artifact maps to the same
tileset/source ID. -/
theorem C10_dateless_id (f g : String)
    (hf : findDate f.data = none) (hg : findDate g.data = none) :
    extract_date f = none ∧
    mapbox_id (extract_date f) = "None-no2" ∧
    mapbox_id (extract_date f) = mapbox_id (extract_date g) := by
  have hf' : extract_date f = none := by
    unfold extract_date
    rw [hf]
    rfl
  have hg' : extract_date g = none := by
    unfold extract_date
    rw [hg]
    rfl
  rw [hf', hg']
  exact ⟨rfl, rfl, rfl⟩

/-- C3: the quantizer maps a physical value through the rounded affine
formula clamped to the code range — every value below `physical_min` encodes
to `code_min`, every value above `physical_max` encodes to `code_max` — and
with the configured profile (0, 1e16, 1, 255) the value 5e15 encodes to 128
and the value 2e16 encodes to 255. -/
theorem C3_quantizer_clamping (p : QuantizationProfile)
    (hp : p.physical_min < p.physical_max) (hc : p.code_min ≤ p.code_max) :
    (∀ v : ℚ, v < p.physical_min → quantize p v = p.code_min) ∧
    (∀ v : ℚ, p.physical_max < v → quantize p v = p.code_max) ∧
    quantize tempoProfile (5 * 10 ^ 15) = 128 ∧
    quantize tempoProfile (2 * 10 ^ 16) = 255 := by
  have hcQ : ((p.code_min : ℚ)) ≤ (p.code_max : ℚ) := by exact_mod_cast hc
  refine ⟨?_, ?_, ?_, ?_⟩
  · intro v hv
    have h1 : (v - p.physical_min) / (p.physical_max - p.physical_min) ≤ 0 :=
      div_nonpos_iff.mpr (Or.inr ⟨by linarith, by linarith⟩)
    have h12 : (v - p.physical_min) / (p.physical_max - p.physical_min)
        * ((p.code_max : ℚ) - (p.code_min : ℚ)) ≤ 0 :=
      mul_nonpos_of_nonpos_of_nonneg h1 (by linarith)
    have h2 : affine p v ≤ ((p.code_min : ℚ)) := by
      unfold affine
      linarith
    have h3 : round (affine p v) ≤ p.code_min := by
      have := round_le_round h2
      rwa [round_intCast] at this
    unfold quantize
    rw [min_eq_right (le_trans h3 hc), max_eq_left h3]
  · intro v hv
    have hd : 0 < p.physical_max - p.physical_min := by linarith
    have h1 : (1 : ℚ) ≤ (v - p.physical_min) / (p.physical_max - p.physical_min) :=
      (one_le_div hd).mpr (by linarith)
    have h12 := mul_le_mul_of_nonneg_right h1
      (by linarith : (0 : ℚ) ≤ (p.code_max : ℚ) - (p.code_min : ℚ))
    rw [one_mul] at h12
    have h2 : ((p.code_max : ℚ)) ≤ affine p v := by
      unfold affine
      linarith
    have h3 : p.code_max ≤ round (affine p v) := by
      have := round_le_round h2
      rwa [round_intCast] at this
    unfold quantize
    rw [min_eq_left h3, max_eq_right hc]
  · norm_num [quantize, affine, tempoProfile, round_eq]
  · norm_num [quantize, affine, tempoProfile, round_eq]

theorem C3_quantizer_clamping_witness :
    quantize tempoProfile (-3) = 1 ∧
    quantize tempoProfile (2 * 10 ^ 16) = 255 ∧
    quantize tempoProfile (5 * 10 ^ 15) = 128 := by
  have h := C3_quantizer_clamping tempoProfile
    (by norm_num [tempoProfile]) (by norm_num [tempoProfile])
  exact ⟨h.1 (-3) (by norm_num [tempoProfile]),
    h.2.1 (2 * 10 ^ 16) (by norm_num [tempoProfile]), h.2.2.1⟩

/-- C4: decoding a code in `[code_min, code_max]` to physical units with the
inverse affine map and re-encoding with the forward map yields the same code,
and the forward map is idempotent after one quantization step. -/
theorem C4_quantization_roundtrip (p : QuantizationProfile)
    (hp : p.physical_min < p.physical_max) (hc : p.code_min < p.code_max) :
    (∀ c : ℤ, p.code_min ≤ c → c ≤ p.code_max →
      quantize p (decode p c) = c) ∧
    (∀ v : ℚ, quantize p (decode p (quantize p v)) = quantize p v) := by
  have key : ∀ c : ℤ, p.code_min ≤ c → c ≤ p.code_max →
      quantize p (decode p c) = c := by
    intro c h1 h2
    unfold quantize
    rw [affine_decode p hp hc, round_intCast, min_eq_right h2, max_eq_right h1]
  refine ⟨key, fun v => ?_⟩
  obtain ⟨l, u⟩ := quantize_mem p hc.le v
  exact key _ l u

theorem C4_quantization_roundtrip_witness :
    quantize tempoProfile (decode tempoProfile 37) = 37 ∧
    quantize tempoProfile (decode tempoProfile (quantize tempoProfile 42))
      = quantize tempoProfile 42 := by
  have h := C4_quantization_roundtrip tempoProfile
    (by norm_num [tempoProfile]) (by norm_num [tempoProfile])
  exact ⟨h.1 37 (by norm_num [tempoProfile]) (by norm_num [tempoProfile]), h.2 42⟩

/-- C5: nodata pixels (after reduction or clipping) encode exactly to
`nodata_code`, bypassing the affine formula; for a valid profile (one whose
`nodata_code` lies outside `[code_min, code_max]` — the configured profile is
valid) the quantizer never produces `nodata_code` for any physical value, so
nodata codes and clamped valid codes never collide. -/
theorem C5_nodata_reservation (p : QuantizationProfile) (hv : ValidProfile p) :
    (∀ pix : Option ℚ, pix = none → encodePixel p pix = p.nodata_code) ∧
    (∀ (ins : Nat → Nat → Bool) (r : Raster) (i j : Nat),
      (clipRaster ins r).data i j = none →
      (encodeRaster p (clipRaster ins r)).data i j = p.nodata_code) ∧
    (∀ v : ℚ, encodePixel p (some v) ≠ p.nodata_code) ∧
    ValidProfile tempoProfile := by
  obtain ⟨hc, hn⟩ := hv
  refine ⟨?_, ?_, ?_, by decide⟩
  · rintro _ rfl
    rfl
  · intro ins r i j hij
    show encodePixel p ((clipRaster ins r).data i j) = p.nodata_code
    rw [hij]
    rfl
  · intro v
    have hm := quantize_mem p hc v
    show quantize p v ≠ p.nodata_code
    rcases hn with h | h <;> omega

theorem C5_nodata_reservation_witness :
    encodePixel tempoProfile none = 0 ∧
    encodePixel tempoProfile (some (5 * 10 ^ 15)) ≠ 0 := by
  have h := C5_nodata_reservation tempoProfile (by decide)
  exact ⟨h.1 none rfl, h.2.2.1 (5 * 10 ^ 15)⟩

/-- C6: clipping preserves the raster's shape, sets every exterior pixel to
nodata and leaves every interior pixel unchanged; neither the temporal
reduction nor the encoding changes the shape relative to the source cube's
spatial dimensions. -/
theorem C6_clip_mask_and_shape (ins : Nat → Nat → Bool) (r : Raster)
    (c : RasterCube) (p : QuantizationProfile) :
    (clipRaster ins r).rows = r.rows ∧
    (clipRaster ins r).cols = r.cols ∧
    (∀ i j, ins i j = false → (clipRaster ins r).data i j = none) ∧
    (∀ i j, ins i j = true → (clipRaster ins r).data i j = r.data i j) ∧
    (reduceCube c).rows = c.rows ∧
    (reduceCube c).cols = c.cols ∧
    (encodeRaster p (clipRaster ins (reduceCube c))).rows = c.rows ∧
    (encodeRaster p (clipRaster ins (reduceCube c))).cols = c.cols := by
  refine ⟨rfl, rfl, ?_, ?_, rfl, rfl, rfl, rfl⟩
  · intro i j h
    simp [clipRaster, h]
  · intro i j h
    simp [clipRaster, h]

theorem C6_clip_mask_and_shape_witness :
    (clipRaster (fun i j => i == j) ⟨2, 2, fun _ _ => some 7⟩).data 0 1 = none ∧
    (clipRaster (fun i j => i == j) ⟨2, 2, fun _ _ => some 7⟩).data 0 0 = some 7 := by
  have h := C6_clip_mask_and_shape (fun i j => i == j)
    ⟨2, 2, fun _ _ => some 7⟩ ⟨0, 0, []⟩ tempoProfile
  exact ⟨h.2.2.1 0 1 (by decide), h.2.2.2.1 0 0 (by decide)⟩

/-- C7: tileset creation reports success exactly on a 200/201 response or on
a 400 response whose body indicates the tileset already exists; every other
response is reported as failure. -/
theorem C7_create_success_iff (status : Nat) (body : Bool) :
    create_ok status body = true ↔
      status = 200 ∨ status = 201 ∨ (status = 400 ∧ body = true) := by
  unfold create_ok
  split_ifs with h1 h2 <;> simp_all
  tauto

theorem C7_create_success_iff_witness :
    create_ok 400 true = true ∧ create_ok 201 false = true := by
  exact ⟨(C7_create_success_iff 400 true).mpr (Or.inr (Or.inr ⟨rfl, rfl⟩)),
    (C7_create_success_iff 201 false).mpr (Or.inr (Or.inl rfl))⟩

/-- Remote behaviour refuting C8: probe says absent (404), the single upload
POST fails permanently (500), creation and publish would answer 200. -/
def c8Remote : Remote :=
  ⟨404, fun _ => 500, fun _ => 200, false, fun _ => 200⟩

/-- C8 fails on the code: the main loop ignores the upload step's boolean
result, so after a permanent (non-429) upload failure it still issues the
tileset-creation and publish calls for the artifact. -/
theorem C8_upload_failure_counterexample :
    (processArtifact c8Remote).uploadResult = some false ∧
    Call.createPost ∈ (processArtifact c8Remote).calls ∧
    Call.publishPost ∈ (processArtifact c8Remote).calls := by
  decide

/-- C8 amended: a non-429 upload failure is reported (`uploadResult = false`)
and the upload is not retried (exactly one upload POST), but the orchestrator
does not abort the artifact — it still issues tileset-creation and publish
calls. -/
theorem C8_upload_failure_amended (r : Remote)
    (hprobe : tileset_exists r.probeStatus = false)
    (h429 : r.uploadResp 0 ≠ 429) (hfail : r.uploadResp 0 ≠ 200) :
    (processArtifact r).uploadResult = some false ∧
    (processArtifact r).calls.count Call.uploadPost = 1 ∧
    Call.createPost ∈ (processArtifact r).calls ∧
    Call.publishPost ∈ (processArtifact r).calls := by
  have himm := post_with_backoff_immediate r.uploadResp h429
  have hmem := mem_calls_of_not_exists r hprobe
  rw [processArtifact_not_exists r hprobe] at hmem ⊢
  refine ⟨?_, ?_, hmem.2.1, hmem.2.2⟩
  · simp [himm, upload_ok, hfail]
  · rw [himm]
    simp [List.count_append, List.count_replicate, List.count_cons]

theorem C8_upload_failure_amended_witness :
    (processArtifact c8Remote).uploadResult = some false ∧
    (processArtifact c8Remote).calls.count Call.uploadPost = 1 := by
  have h := C8_upload_failure_amended c8Remote (by decide) (by decide) (by decide)
  exact ⟨h.1, h.2.1⟩

theorem C10_dateless_id_witness :
    extract_date "tempo_output.tif" = none ∧
    mapbox_id (extract_date "tempo_output.tif") = "None-no2" ∧
    mapbox_id (extract_date "tempo_output.tif")
      = mapbox_id (extract_date "cog_final.tif") := by
  exact C10_dateless_id "tempo_output.tif" "cog_final.tif" (by decide) (by decide)

end Tempo
